import Mathlib

/-!
Verification development for the liming prescription calculation engine
(src/calculators/liming.py and src/utils/rainfall_lookup.py).

Numeric soil values (pH, doses, rates) are embedded as rationals; the
Python code computes with binary floats, but every claim under study is
about the algebraic structure of the formulas, which the rational
embedding reproduces exactly.  Strings are embedded as Lean strings;
Python None is embedded as Option.  Python float division raises
ZeroDivisionError on a zero divisor; where a claim depends on that
behaviour the function is additionally embedded with an Except-valued
division (pydiv below), and otherwise total rational division is used
together with nonzero-divisor hypotheses in the theorems.
-/

set_option maxHeartbeats 1600000

namespace Liming

/-- Python float division: raises (error) on a zero divisor. -/
def pydiv (a b : ℚ) : Except Unit ℚ :=
  if b = 0 then .error () else .ok (a / b)

/-- Python substring test (the in operator on strings), as used by the
keyword heuristics of map_soil_texture. -/
def strContains (s pat : String) : Bool :=
  decide (pat.toList <:+: s.toList)

/-- Python str.upper, character by character (the inputs are ASCII). -/
def pyUpper (s : String) : String := String.mk (s.data.map Char.toUpper)

/-- Python str.lower, character by character (the inputs are ASCII). -/
def pyLower (s : String) : String := String.mk (s.data.map Char.toLower)

/-- Python dict lookup over an association list (the dict literals of the
source have pairwise distinct keys, so first match is the dict entry). -/
def lookupStr {α : Type} (table : List (String × α)) (key : String) : Option α :=
  match table with
  | [] => none
  | (k, v) :: rest => if key = k then some v else lookupStr rest key

namespace VDLUFACalculator

/-- Embeds VDLUFACalculator.SOIL_TEXTURES. -/
def SOIL_TEXTURES : List String :=
  ["Sand",
   "Schwach Lehm Sand",
   "Stark Lehmiger Sand",
   "Sandiger Schl Lehm",
   "Toniger Lehm b.Ton"]

/-- Embeds VDLUFACalculator.LIME_CONVERSION_FACTORS. -/
def LIME_CONVERSION_FACTORS : List (String × ℚ) :=
  [("CaO", 1),
   ("CaCO3", 1.785),
   ("Ca(OH)2", 1.321),
   ("Quicklime", 1),
   ("Slaked_lime", 1.321),
   ("Agrocarb", 2.381),
   ("Omya_Calciprill", 1.887)]

/-- Embeds VDLUFACalculator.TEXTURE_MAPPING; values are Option because the
Python dict maps Bog and half-bog soil to None. -/
def TEXTURE_MAPPING : List (String × Option String) :=
  [("Bog", none),
   ("Clay", some "Toniger Lehm b.Ton"),
   ("Clayey loam", some "Toniger Lehm b.Ton"),
   ("half-bog soil", none),
   ("loamy clay", some "Toniger Lehm b.Ton"),
   ("sand", some "Sand"),
   ("sandy loam", some "Sandiger Schl Lehm"),
   ("silty clay", some "Toniger Lehm b.Ton"),
   ("silty loam", some "Stark Lehmiger Sand"),
   ("slightly clayey loam", some "Toniger Lehm b.Ton"),
   ("slightly loamy sand", some "Schwach Lehm Sand"),
   ("very loamy sand", some "Stark Lehmiger Sand"),
   ("CLAY", some "Toniger Lehm b.Ton"),
   ("SANDY_LOAM", some "Sandiger Schl Lehm"),
   ("SILTY_LOAM", some "Stark Lehmiger Sand"),
   ("SAND", some "Sand"),
   ("Sand", some "Sand"),
   ("Schwach Lehm Sand", some "Schwach Lehm Sand"),
   ("Stark Lehmiger Sand", some "Stark Lehmiger Sand"),
   ("Sandiger Schl Lehm", some "Sandiger Schl Lehm"),
   ("Toniger Lehm b.Ton", some "Toniger Lehm b.Ton")]

/-- Embeds VDLUFACalculator.map_soil_texture: exact lookup, then upper-case
lookup, then keyword heuristics, else None. -/
def map_soil_texture : Option String → Option String
  | none => none
  | some api_texture =>
    match lookupStr TEXTURE_MAPPING api_texture with
    | some v => v
    | none =>
      match lookupStr TEXTURE_MAPPING (pyUpper api_texture) with
      | some v => v
      | none =>
        let texture_lower := pyLower api_texture
        if strContains texture_lower "sand" then
          if strContains texture_lower "loam" then some "Schwach Lehm Sand"
          else some "Sand"
        else if strContains texture_lower "clay" then some "Toniger Lehm b.Ton"
        else if strContains texture_lower "loam" || strContains texture_lower "lehm" then
          some "Stark Lehm Sand"
        else if strContains texture_lower "silt" then some "Sandiger Schl Lehm"
        else none

/-- Embeds VDLUFACalculator.convert_lime_type. -/
def convert_lime_type (cao_equivalent : ℚ) (target_lime_type : String) : ℚ :=
  match lookupStr LIME_CONVERSION_FACTORS target_lime_type with
  | some factor => cao_equivalent * factor
  | none => cao_equivalent

/-- Embeds VDLUFACalculator._get_optimal_ph (nested dict lookup with default
6.5 for unknown crop type or texture). -/
def _get_optimal_ph (soil_texture : Option String) (crop_type : String) : ℚ :=
  if crop_type = "Standard crops" then
    if soil_texture = some "Sand" then 5.9
    else if soil_texture = some "Schwach Lehm Sand" then 6.4
    else if soil_texture = some "Stark Lehmiger Sand" then 6.8
    else if soil_texture = some "Sandiger Schl Lehm" then 7.1
    else if soil_texture = some "Toniger Lehm b.Ton" then 7.3
    else 6.5
  else if crop_type = "Other crops" then
    if soil_texture = some "Sand" then 5.1
    else if soil_texture = some "Schwach Lehm Sand" then 5.5
    else if soil_texture = some "Stark Lehmiger Sand" then 5.8
    else if soil_texture = some "Sandiger Schl Lehm" then 6.1
    else if soil_texture = some "Toniger Lehm b.Ton" then 6.3
    else 6.5
  else 6.5

/-- Embeds VDLUFACalculator._calculate_standard_crops (dt/ha CaO). -/
def _calculate_standard_crops (current_ph : ℚ) (soil_texture : Option String) : ℚ :=
  if soil_texture = some "Sand" then
    if current_ph < 4 then 45
    else if 5.3 < current_ph ∧ current_ph < 5.9 then -11.852 * current_ph + 69.93
    else if current_ph > 5.8 then 0
    else -28.945 * current_ph + 160.52
  else if soil_texture = some "Schwach Lehm Sand" then
    if current_ph < 4 then 77
    else if 5.7 < current_ph ∧ current_ph < 6.4 then -16.667 * current_ph + 106.67
    else if current_ph > 6.3 then 0
    else -38.71 * current_ph + 231.47
  else if soil_texture = some "Stark Lehmiger Sand" then
    if current_ph < 4 then 87
    else if 6.0 < current_ph ∧ current_ph < 6.8 then -20.0 * current_ph + 136.0
    else if current_ph > 6.7 then 0
    else -47.912 * current_ph + 302.54
  else if soil_texture = some "Sandiger Schl Lehm" then
    if current_ph < 4 then 117
    else if 6.2 < current_ph ∧ current_ph < 7.1 then -21.25 * current_ph + 150.87
    else if current_ph > 7.0 then 0
    else -58.122 * current_ph + 378.54
  else if soil_texture = some "Toniger Lehm b.Ton" then
    if current_ph < 4 then 160
    else if 6.3 < current_ph ∧ current_ph < 7.3 then -22.222 * current_ph + 162.22
    else if current_ph > 6.3 then 0
    else -76.93 * current_ph + 505.53
  else
    if current_ph < 4 then 45
    else if current_ph > 5.8 then 0
    else -28.945 * current_ph + 160.52

/-- Embeds VDLUFACalculator._calculate_other_crops (dt/ha CaO). -/
def _calculate_other_crops (current_ph : ℚ) (soil_texture : Option String) : ℚ :=
  if soil_texture = some "Sand" then
    if current_ph < 3.4 then 50
    else if 4.6 < current_ph ∧ current_ph < 5.2 then -8.0 * current_ph + 41.6
    else if current_ph > 5.1 then 0
    else -37.692 * current_ph + 178.46
  else if soil_texture = some "Schwach Lehm Sand" then
    if current_ph < 3.3 then 83
    else if 4.9 < current_ph ∧ current_ph < 5.6 then -13.333 * current_ph + 74.667
    else if current_ph > 5.5 then 0
    else -46.348 * current_ph + 235.91
  else if soil_texture = some "Stark Lehmiger Sand" then
    if current_ph < 3.8 then 90
    else if 5.1 < current_ph ∧ current_ph < 5.9 then -14.286 * current_ph + 84.286
    else if current_ph > 5.8 then 0
    else -60.989 * current_ph + 322.04
  else if soil_texture = some "Sandiger Schl Lehm" then
    if current_ph < 3.8 then 109
    else if 5.3 < current_ph ∧ current_ph < 6.2 then -16.25 * current_ph + 100.75
    else if current_ph > 6.1 then 0
    else -63.309 * current_ph + 349.87
  else if soil_texture = some "Toniger Lehm b.Ton" then
    if current_ph < 3.8 then 121
    else if 5.4 < current_ph ∧ current_ph < 6.4 then -17.778 * current_ph + 113.78
    else if current_ph > 6.3 then 0
    else -65.0 * current_ph + 368.24
  else 0

/-- Embeds VDLUFACalculator.calculate_lime_requirement (kg/ha of the target
lime type).  The maintenance branch divides by
LIME_CONVERSION_FACTORS of CaCO3, which is the literal 1.785. -/
def calculate_lime_requirement (current_ph : ℚ) (soil_texture : Option String)
    (crop_type : String) (lime_type : String) (liming_mode : String)
    (caco3_loss_kg_ha : Option ℚ) (nv : ℚ) : ℚ :=
  let mapped_texture := map_soil_texture soil_texture
  let optimal_ph := _get_optimal_ph mapped_texture crop_type
  if liming_mode = "pH Maintenance" then
    if optimal_ph ≤ current_ph then 0
    else
      match caco3_loss_kg_ha with
      | some loss => (loss / 1.785) * (100 / nv)
      | none => 0
  else if liming_mode = "Automatic" ∧ optimal_ph ≤ current_ph then 0
  else
    let cao_dt_ha :=
      if crop_type = "Standard crops" then _calculate_standard_crops current_ph mapped_texture
      else _calculate_other_crops current_ph mapped_texture
    convert_lime_type (cao_dt_ha * 100) lime_type

/-- Embeds VDLUFACalculator.reverse_calculate_ph on the path where
current_ph is provided (the only path the orchestrator uses; the dead
binary-search loop in the source exits immediately and is omitted). -/
def reverse_calculate_ph (lime_kg_ha : ℚ) (soil_texture : Option String)
    (crop_type : String) (lime_type : String) (current_ph : ℚ) : ℚ :=
  let mapped_texture := map_soil_texture soil_texture
  let optimal_ph := _get_optimal_ph mapped_texture crop_type
  if lime_kg_ha ≤ 0 then current_ph
  else
    let lime_to_optimal :=
      calculate_lime_requirement current_ph soil_texture crop_type lime_type
        "pH Improvement" none 100
    if lime_to_optimal ≤ 0 then current_ph
    else
      let ph_increase_fraction := min 1 (lime_kg_ha / lime_to_optimal)
      current_ph + ph_increase_fraction * (optimal_ph - current_ph)

end VDLUFACalculator

namespace CECCalculator

/-- Embeds CECCalculator._calculate_standard (kg/ha). -/
def _calculate_standard (current_ph target_ph cec_soil fine_dry_soil nv dose : ℚ) : ℚ :=
  if target_ph ≤ current_ph then 0
  else
    let numerator := (cec_soil * 150 / 3500) * fine_dry_soil
    let lime_requirement := (numerator / (nv * 10) / 0.5) * ((target_ph - current_ph) * dose) * 1000
    max 0 lime_requirement

/-- Embeds CECCalculator._s_cec_to_ph (two-segment linear map from a
saturation percentage to a pH). -/
def _s_cec_to_ph (s_cec_percentage : ℚ) : ℚ :=
  if s_cec_percentage ≤ 50 then 4.5 + (s_cec_percentage / 50) * 2.0
  else 6.5 + ((s_cec_percentage - 50) / 50) * 1.5

/-- Embeds CECCalculator._calculate_with_modified_s_cec. -/
def _calculate_with_modified_s_cec (current_ph target_ph cec_soil fine_dry_soil nv dose
    s_cec_percentage modified_s_cec : ℚ) : ℚ :=
  let calculated_s_cec_ph := _s_cec_to_ph modified_s_cec
  let average_ph := (current_ph + calculated_s_cec_ph) / 2
  if target_ph < average_ph then 0
  else
    let qty_current := _calculate_standard current_ph target_ph cec_soil fine_dry_soil nv dose
    let qty_s_cec := _calculate_standard calculated_s_cec_ph target_ph cec_soil fine_dry_soil nv dose
    (qty_current + qty_s_cec) / 2

/-- Embeds the final dispatch of CECCalculator.calculate_lime_requirement:
standard calculation unless both saturation parameters are supplied. -/
def dispatch_s_cec (current_ph effective_target_ph cec_soil fine_dry_soil nv dose : ℚ)
    (s_cec_percentage modified_s_cec : Option ℚ) : ℚ :=
  match s_cec_percentage, modified_s_cec with
  | some s, some m =>
    _calculate_with_modified_s_cec current_ph effective_target_ph cec_soil fine_dry_soil nv dose s m
  | _, _ => _calculate_standard current_ph effective_target_ph cec_soil fine_dry_soil nv dose

/-- Embeds CECCalculator.calculate_lime_requirement (kg/ha). -/
def calculate_lime_requirement (current_ph target_ph cec_soil fine_dry_soil nv dose : ℚ)
    (s_cec_percentage modified_s_cec : Option ℚ) (liming_mode : String)
    (caco3_loss_kg_ha : Option ℚ) : ℚ :=
  if liming_mode = "pH Maintenance" then
    if target_ph ≤ current_ph then 0
    else
      match caco3_loss_kg_ha with
      | some loss => (loss / 1.785) * (100 / nv)
      | none => 0
  else if liming_mode = "Automatic" then
    if target_ph < current_ph then 0
    else if target_ph - 0.1 ≤ current_ph then
      match caco3_loss_kg_ha with
      | some loss => loss * (100 / nv)
      | none =>
        dispatch_s_cec current_ph (current_ph + 0.1) cec_soil fine_dry_soil nv dose
          s_cec_percentage modified_s_cec
    else
      dispatch_s_cec current_ph target_ph cec_soil fine_dry_soil nv dose
        s_cec_percentage modified_s_cec
  else
    dispatch_s_cec current_ph target_ph cec_soil fine_dry_soil nv dose
      s_cec_percentage modified_s_cec

/-- Embeds CECCalculator.reverse_calculate_ph with total rational
division (the Python code divides by nv * 10 before reaching the
K * dose == 0 guard; the Except-valued embedding below captures that). -/
def reverse_calculate_ph (lime_kg_ha current_ph cec_soil fine_dry_soil nv dose : ℚ) : ℚ :=
  if lime_kg_ha ≤ 0 then current_ph
  else
    let numerator := (cec_soil * 150 / 3500) * fine_dry_soil
    let K := (numerator / (nv * 10) / 0.5) * 1000
    if K * dose = 0 then current_ph
    else current_ph + lime_kg_ha / (K * dose)

/-- Embeds CECCalculator.reverse_calculate_ph with Python division
semantics: each float division is pydiv, which errors on a zero divisor
exactly where Python raises ZeroDivisionError. -/
def reverse_calculate_ph_exc (lime_kg_ha current_ph cec_soil fine_dry_soil nv dose : ℚ) :
    Except Unit ℚ :=
  if lime_kg_ha ≤ 0 then .ok current_ph
  else do
    let numerator := (cec_soil * 150 / 3500) * fine_dry_soil
    let q1 ← pydiv numerator (nv * 10)
    let q2 ← pydiv q1 0.5
    let K := q2 * 1000
    if K * dose = 0 then .ok current_ph
    else do
      let q3 ← pydiv lime_kg_ha (K * dose)
      .ok (current_ph + q3)

end CECCalculator

/-- Embeds the per-sample input of LimingPrescription.calculate_prescription
after the rainfall step: pH, raw texture and the externally computed CaCO3
leaching loss (the rainfall lookup itself is an excluded collaborator). -/
structure Sample where
  ph_value : Option ℚ
  soil_texture : Option String
  caco3_loss_kg_ha : Option ℚ

/-- Embeds the method_params dict as read by
LimingPrescription._calculate_vdlufa_prescription, with the source's
dict-get defaults already applied. -/
structure VDLUFAParams where
  crop_type : String
  lime_type : String
  max_application_rate : Option ℚ
  default_soil_texture : String
  liming_mode : String
  nv : ℚ

/-- Embeds the method_params dict as read by
LimingPrescription._calculate_cec_prescription, with the source's
dict-get defaults already applied. -/
structure CECParams where
  target_ph : ℚ
  max_application_rate : Option ℚ
  cec_soil : ℚ
  fine_dry_soil : Option ℚ
  nv : Option ℚ
  dose : ℚ
  s_cec_percentage : Option ℚ
  modified_s_cec : Option ℚ
  liming_mode : String

/-- Embeds LimingPrescription._calculate_vdlufa_prescription; the result is
(lime_requirement, applied_mode, target_ph, was_capped). -/
def _calculate_vdlufa_prescription (sample : Sample) (params : VDLUFAParams) :
    ℚ × String × Option ℚ × Bool :=
  match sample.ph_value with
  | none => (0, "N/A", none, false)
  | some current_ph =>
    let soil_texture : String :=
      match sample.soil_texture with
      | some t => t
      | none => params.default_soil_texture
    let liming_mode := params.liming_mode
    let mapped_texture := VDLUFACalculator.map_soil_texture (some soil_texture)
    let optimal_ph := VDLUFACalculator._get_optimal_ph mapped_texture params.crop_type
    let applied_mode :=
      if liming_mode = "Automatic" then
        if optimal_ph < current_ph then "None (pH above optimal)"
        else if optimal_ph - 0.1 ≤ current_ph then "Maintenance"
        else "Improvement"
      else if liming_mode = "pH Maintenance" then
        if optimal_ph ≤ current_ph then "None (pH at/above optimal)"
        else "Maintenance"
      else "Improvement"
    let caco3_loss :=
      if liming_mode = "pH Maintenance" ∨ liming_mode = "Automatic" then
        sample.caco3_loss_kg_ha
      else none
    let lime_req := VDLUFACalculator.calculate_lime_requirement current_ph (some soil_texture)
      params.crop_type params.lime_type liming_mode caco3_loss params.nv
    let target_ph : Option ℚ :=
      if liming_mode = "pH Maintenance" then some current_ph else some optimal_ph
    match params.max_application_rate with
    | some max_rate =>
      if max_rate < lime_req then
        let tgt :=
          if liming_mode ≠ "pH Maintenance" then
            some (VDLUFACalculator.reverse_calculate_ph max_rate (some soil_texture)
              params.crop_type params.lime_type current_ph)
          else target_ph
        (max_rate, applied_mode, tgt, true)
      else (lime_req, applied_mode, target_ph, false)
    | none => (lime_req, applied_mode, target_ph, false)

/-- Embeds LimingPrescription._calculate_cec_prescription; cecOfTexture
stands for CECCalculator.get_cec_for_texture, whose table is loaded from a
CSV outside the engine, so it is passed as an argument.  The result is
(lime_requirement, applied_mode, achieved_target_ph, was_capped). -/
def _calculate_cec_prescription (cecOfTexture : String → ℚ) (sample : Sample)
    (params : CECParams) : ℚ × String × Option ℚ × Bool :=
  let target_ph := params.target_ph
  let cec_soil :=
    match sample.soil_texture with
    | some t => cecOfTexture t
    | none => params.cec_soil
  match sample.ph_value, params.fine_dry_soil, params.nv with
  | some current_ph, some fine_dry_soil, some nv =>
    let liming_mode := params.liming_mode
    let applied_mode :=
      if liming_mode = "Automatic" then
        if target_ph < current_ph then "None (pH above target)"
        else if target_ph - 0.1 ≤ current_ph then "Maintenance"
        else "Improvement"
      else if liming_mode = "pH Maintenance" then
        if target_ph ≤ current_ph then "None (pH at/above target)"
        else "Maintenance"
      else "Improvement"
    let caco3_loss :=
      if liming_mode = "pH Maintenance" ∨ liming_mode = "Automatic" then
        sample.caco3_loss_kg_ha
      else none
    let lime_req := CECCalculator.calculate_lime_requirement current_ph target_ph cec_soil
      fine_dry_soil nv params.dose params.s_cec_percentage params.modified_s_cec
      liming_mode caco3_loss
    let achieved_target_ph : Option ℚ :=
      if liming_mode = "pH Maintenance" then some current_ph else some target_ph
    match params.max_application_rate with
    | some max_rate =>
      if max_rate < lime_req then
        let tgt :=
          if liming_mode ≠ "pH Maintenance" then
            some (CECCalculator.reverse_calculate_ph max_rate current_ph cec_soil
              fine_dry_soil nv params.dose)
          else achieved_target_ph
        (max_rate, applied_mode, tgt, true)
      else (lime_req, applied_mode, achieved_target_ph, false)
    | none => (lime_req, applied_mode, achieved_target_ph, false)
  | _, _, _ => (0, "N/A", none, false)

/-- Embeds get_bicarbonate_factor of src/utils/rainfall_lookup.py: a power
law of pH clamped to the range 5 to 500 mg/L.  The Python float power is
embedded as the real power function. -/
noncomputable def get_bicarbonate_factor (ph : ℝ) : ℝ :=
  max 5.0 (min 500.0 (0.002304 * ph ^ (5.792337 : ℝ)))

/-- Analysis helper: index of the branch of _calculate_standard_crops that
fires at a given pH (0 flat ceiling, 1 shallow descending segment, 2 zero
plateau, 3 steep descending segment), mirroring the source if-chain
condition for condition. -/
def stdBranch (soil_texture : Option String) (current_ph : ℚ) : ℕ :=
  if soil_texture = some "Sand" then
    if current_ph < 4 then 0
    else if 5.3 < current_ph ∧ current_ph < 5.9 then 1
    else if current_ph > 5.8 then 2
    else 3
  else if soil_texture = some "Schwach Lehm Sand" then
    if current_ph < 4 then 0
    else if 5.7 < current_ph ∧ current_ph < 6.4 then 1
    else if current_ph > 6.3 then 2
    else 3
  else if soil_texture = some "Stark Lehmiger Sand" then
    if current_ph < 4 then 0
    else if 6.0 < current_ph ∧ current_ph < 6.8 then 1
    else if current_ph > 6.7 then 2
    else 3
  else if soil_texture = some "Sandiger Schl Lehm" then
    if current_ph < 4 then 0
    else if 6.2 < current_ph ∧ current_ph < 7.1 then 1
    else if current_ph > 7.0 then 2
    else 3
  else if soil_texture = some "Toniger Lehm b.Ton" then
    if current_ph < 4 then 0
    else if 6.3 < current_ph ∧ current_ph < 7.3 then 1
    else if current_ph > 6.3 then 2
    else 3
  else
    if current_ph < 4 then 0
    else if current_ph > 5.8 then 2
    else 3

/-- Analysis helper: branch index of _calculate_other_crops, mirroring the
source if-chain condition for condition. -/
def otherBranch (soil_texture : Option String) (current_ph : ℚ) : ℕ :=
  if soil_texture = some "Sand" then
    if current_ph < 3.4 then 0
    else if 4.6 < current_ph ∧ current_ph < 5.2 then 1
    else if current_ph > 5.1 then 2
    else 3
  else if soil_texture = some "Schwach Lehm Sand" then
    if current_ph < 3.3 then 0
    else if 4.9 < current_ph ∧ current_ph < 5.6 then 1
    else if current_ph > 5.5 then 2
    else 3
  else if soil_texture = some "Stark Lehmiger Sand" then
    if current_ph < 3.8 then 0
    else if 5.1 < current_ph ∧ current_ph < 5.9 then 1
    else if current_ph > 5.8 then 2
    else 3
  else if soil_texture = some "Sandiger Schl Lehm" then
    if current_ph < 3.8 then 0
    else if 5.3 < current_ph ∧ current_ph < 6.2 then 1
    else if current_ph > 6.1 then 2
    else 3
  else if soil_texture = some "Toniger Lehm b.Ton" then
    if current_ph < 3.8 then 0
    else if 5.4 < current_ph ∧ current_ph < 6.4 then 1
    else if current_ph > 6.3 then 2
    else 3
  else 2


end Liming

namespace Liming

/-- Evaluation helper: the resolver fixes the five VDLUFA class names. -/
theorem map_soil_texture_eval_sand :
    VDLUFACalculator.map_soil_texture (some "Sand") = some "Sand" := by decide

/-- Evaluation helper. -/
theorem map_soil_texture_eval_sls :
    VDLUFACalculator.map_soil_texture (some "Schwach Lehm Sand") =
      some "Schwach Lehm Sand" := by decide

/-- Evaluation helper: the optimal pH of Sand under Standard crops. -/
theorem optimal_ph_eval_sand_std :
    VDLUFACalculator._get_optimal_ph (some "Sand") "Standard crops" = 5.9 := by
  norm_num [VDLUFACalculator._get_optimal_ph]

end Liming

open Liming in
/-- C4: for all inputs with currentPh < targetPh (physical, nonnegative
parameters; no saturation modification) the CEC forward requirement equals
(((cecSoil * 150/3500) * fineDrySoil) / (nv * 10) / 0.5) * (targetPh - currentPh)
* dose * 1000 kg/ha, equals 0 when currentPh ≥ targetPh, the improvement-mode
entry point without saturation data reduces to this standard formula, and the
concrete scenario 5.8 → 6.5, CEC 10, fineDrySoil 1500, NV 53, dose 1 yields
90000/53 ≈ 1698.1 kg/ha. -/
theorem c4_cec_forward :
    (∀ current_ph target_ph cec_soil fine_dry_soil nv dose : ℚ,
      current_ph < target_ph → 0 ≤ cec_soil → 0 ≤ fine_dry_soil → 0 < nv → 0 ≤ dose →
      CECCalculator._calculate_standard current_ph target_ph cec_soil fine_dry_soil nv dose =
        ((cec_soil * 150 / 3500) * fine_dry_soil) / (nv * 10) / 0.5 *
          (target_ph - current_ph) * dose * 1000) ∧
    (∀ current_ph target_ph cec_soil fine_dry_soil nv dose : ℚ,
      target_ph ≤ current_ph →
      CECCalculator._calculate_standard current_ph target_ph cec_soil fine_dry_soil nv dose = 0) ∧
    (∀ current_ph target_ph cec_soil fine_dry_soil nv dose : ℚ, ∀ loss : Option ℚ,
      CECCalculator.calculate_lime_requirement current_ph target_ph cec_soil fine_dry_soil nv dose
          none none "pH Improvement" loss =
        CECCalculator._calculate_standard current_ph target_ph cec_soil fine_dry_soil nv dose) ∧
    CECCalculator._calculate_standard 5.8 6.5 10 1500 53 1 = 90000 / 53 ∧
    |(90000 : ℚ) / 53 - 1698.1| < 0.1 := by
  refine ⟨?_, ?_, ?_, by norm_num [CECCalculator._calculate_standard], by norm_num [abs]⟩
  · intro c t cec fds nv dose hct hcec hfds hnv hdose
    unfold CECCalculator._calculate_standard
    rw [if_neg (not_le.mpr hct)]
    have h0 : (0 : ℚ) ≤ ((cec * 150 / 3500) * fds) / (nv * 10) / 0.5 * ((t - c) * dose) * 1000 := by
      have h1 : (0 : ℚ) ≤ (cec * 150 / 3500) * fds :=
        mul_nonneg (div_nonneg (mul_nonneg hcec (by norm_num)) (by norm_num)) hfds
      have h2 : (0 : ℚ) ≤ ((cec * 150 / 3500) * fds) / (nv * 10) / 0.5 :=
        div_nonneg (div_nonneg h1 (by linarith)) (by norm_num)
      have h3 : (0 : ℚ) ≤ (t - c) * dose := mul_nonneg (by linarith) hdose
      exact mul_nonneg (mul_nonneg h2 h3) (by norm_num)
    rw [max_eq_right h0]; ring
  · intro c t cec fds nv dose htc
    unfold CECCalculator._calculate_standard
    rw [if_pos htc]
  · intro c t cec fds nv dose loss
    rfl

open Liming in
/-- C4 witness: the formula theorem applied at the concrete scenario. -/
theorem c4_cec_forward_witness :
    CECCalculator._calculate_standard 5.8 6.5 10 1500 53 1 =
      ((10 * 150 / 3500) * 1500) / (53 * 10) / 0.5 * (6.5 - 5.8) * 1 * 1000 :=
  c4_cec_forward.1 5.8 6.5 10 1500 53 1 (by norm_num) (by norm_num) (by norm_num)
    (by norm_num) (by norm_num)

open Liming in
/-- C5 counterexample: with dose = -1 (so K * dose ≠ 0 but K * dose < 0) the
forward requirement is clamped to 0 and the inverse returns the current pH, so
the round trip does not return the target pH: the claim's hypothesis
K * dose ≠ 0 is too weak. -/
theorem c5_round_trip_counterexample :
    (5 : ℚ) < 6 ∧
    ((((10 * 150 / 3500) * 1500) / (53 * 10) / 0.5) * 1000) * (-1 : ℚ) ≠ 0 ∧
    CECCalculator.reverse_calculate_ph
      (CECCalculator._calculate_standard 5 6 10 1500 53 (-1)) 5 10 1500 53 (-1) ≠ 6 := by
  refine ⟨by norm_num, by norm_num, ?_⟩
  norm_num [CECCalculator._calculate_standard, CECCalculator.reverse_calculate_ph]

open Liming in
/-- C5 (amended: K * dose > 0 rather than merely nonzero): for every
currentPh < targetPh with positive K * dose, feeding the CEC forward
requirement into reverse_calculate_ph with the same parameters returns
exactly targetPh. -/
theorem c5_round_trip (current_ph target_ph cec_soil fine_dry_soil nv dose : ℚ)
    (hct : current_ph < target_ph)
    (hK : 0 < (((cec_soil * 150 / 3500) * fine_dry_soil) / (nv * 10) / 0.5 * 1000) * dose) :
    CECCalculator.reverse_calculate_ph
      (CECCalculator._calculate_standard current_ph target_ph cec_soil fine_dry_soil nv dose)
      current_ph cec_soil fine_dry_soil nv dose = target_ph := by
  have hfwd : CECCalculator._calculate_standard current_ph target_ph cec_soil fine_dry_soil nv dose =
      (((cec_soil * 150 / 3500) * fine_dry_soil) / (nv * 10) / 0.5 * 1000) * dose *
        (target_ph - current_ph) := by
    unfold CECCalculator._calculate_standard
    rw [if_neg (not_le.mpr hct)]
    rw [max_eq_right (by nlinarith)]
    ring
  have hne : cec_soil * 150 / 3500 * fine_dry_soil / (nv * 10) / 0.5 * 1000 * dose ≠ 0 :=
    ne_of_gt hK
  unfold CECCalculator.reverse_calculate_ph
  rw [hfwd]
  rw [if_neg (not_le.mpr (by nlinarith))]
  rw [if_neg (by intro h; rw [h] at hK; simp at hK)]
  rw [mul_div_assoc]
  have hcancel : cec_soil * 150 / 3500 * fine_dry_soil / (nv * 10) / 0.5 * 1000 * dose *
      ((target_ph - current_ph) /
        (cec_soil * 150 / 3500 * fine_dry_soil / (nv * 10) / 0.5 * 1000 * dose)) =
      target_ph - current_ph := by
    rw [mul_comm, div_mul_cancel₀ _ hne]
  rw [hcancel]
  ring

open Liming in
/-- C5 witness: the round trip at the concrete scenario inputs. -/
theorem c5_round_trip_witness :
    CECCalculator.reverse_calculate_ph
      (CECCalculator._calculate_standard 5.8 6.5 10 1500 53 1) 5.8 10 1500 53 1 = 6.5 :=
  c5_round_trip 5.8 6.5 10 1500 53 1 (by norm_num) (by norm_num)

open Liming in
/-- C2: in pH Maintenance mode, for both calculators: if currentPh is at or
above the reference pH (the texture/crop optimal pH for VDLUFA, the target pH
for CEC) the dose is 0 regardless of leaching data; below the reference, an
available CaCO3 leaching loss yields exactly (loss / 1.785) * (100 / nv) (the
CaCO3 → CaO → product chain), and a missing loss yields 0.  The output is
fully characterised by the loss, nv and the reference comparison, so the
improvement curves/formula are never consulted in this mode. -/
theorem c2_maintenance_mode :
    (∀ (current_ph : ℚ) (tex : Option String) (crop lt : String) (loss : Option ℚ) (nv : ℚ),
      VDLUFACalculator._get_optimal_ph (VDLUFACalculator.map_soil_texture tex) crop ≤ current_ph →
      VDLUFACalculator.calculate_lime_requirement current_ph tex crop lt "pH Maintenance" loss nv
        = 0) ∧
    (∀ (current_ph : ℚ) (tex : Option String) (crop lt : String) (l nv : ℚ),
      current_ph < VDLUFACalculator._get_optimal_ph (VDLUFACalculator.map_soil_texture tex) crop →
      nv ≠ 0 →
      VDLUFACalculator.calculate_lime_requirement current_ph tex crop lt "pH Maintenance"
        (some l) nv = (l / 1.785) * (100 / nv)) ∧
    (∀ (current_ph : ℚ) (tex : Option String) (crop lt : String) (nv : ℚ),
      current_ph < VDLUFACalculator._get_optimal_ph (VDLUFACalculator.map_soil_texture tex) crop →
      VDLUFACalculator.calculate_lime_requirement current_ph tex crop lt "pH Maintenance"
        none nv = 0) ∧
    (∀ (current_ph target_ph cec_soil fine_dry_soil nv dose : ℚ) (sc msc loss : Option ℚ),
      target_ph ≤ current_ph →
      CECCalculator.calculate_lime_requirement current_ph target_ph cec_soil fine_dry_soil nv dose
        sc msc "pH Maintenance" loss = 0) ∧
    (∀ (current_ph target_ph cec_soil fine_dry_soil nv dose : ℚ) (sc msc : Option ℚ) (l : ℚ),
      current_ph < target_ph → nv ≠ 0 →
      CECCalculator.calculate_lime_requirement current_ph target_ph cec_soil fine_dry_soil nv dose
        sc msc "pH Maintenance" (some l) = (l / 1.785) * (100 / nv)) ∧
    (∀ (current_ph target_ph cec_soil fine_dry_soil nv dose : ℚ) (sc msc : Option ℚ),
      current_ph < target_ph →
      CECCalculator.calculate_lime_requirement current_ph target_ph cec_soil fine_dry_soil nv dose
        sc msc "pH Maintenance" none = 0) := by
  refine ⟨?_, ?_, ?_, ?_, ?_, ?_⟩
  · intro c tex crop lt loss nv h
    unfold VDLUFACalculator.calculate_lime_requirement
    rw [if_pos rfl, if_pos h]
  · intro c tex crop lt l nv h _
    unfold VDLUFACalculator.calculate_lime_requirement
    rw [if_pos rfl, if_neg (not_le.mpr h)]
  · intro c tex crop lt nv h
    unfold VDLUFACalculator.calculate_lime_requirement
    rw [if_pos rfl, if_neg (not_le.mpr h)]
  · intro c t cec fds nv dose sc msc loss h
    unfold CECCalculator.calculate_lime_requirement
    rw [if_pos rfl, if_pos h]
  · intro c t cec fds nv dose sc msc l h _
    unfold CECCalculator.calculate_lime_requirement
    rw [if_pos rfl, if_neg (not_le.mpr h)]
  · intro c t cec fds nv dose sc msc h
    unfold CECCalculator.calculate_lime_requirement
    rw [if_pos rfl, if_neg (not_le.mpr h)]

open Liming in
/-- C2 witness: maintenance mode at concrete inputs: dose 0 at pH 6.5 above
the Sand optimum 5.9 despite available loss data, and the two-step
CaCO3 → CaO → product chain at loss 130 and NV 53 below the optimum. -/
theorem c2_maintenance_mode_witness :
    VDLUFACalculator.calculate_lime_requirement 6.5 (some "Sand") "Standard crops" "CaO"
      "pH Maintenance" (some 130) 53 = 0 ∧
    VDLUFACalculator.calculate_lime_requirement 5.0 (some "Sand") "Standard crops" "CaO"
      "pH Maintenance" (some 130) 53 = (130 / 1.785) * (100 / 53) ∧
    CECCalculator.calculate_lime_requirement 5.8 6.5 10 1500 53 1 none none
      "pH Maintenance" (some 130) = (130 / 1.785) * (100 / 53) ∧
    CECCalculator.calculate_lime_requirement 5.8 6.5 10 1500 53 1 none none
      "pH Maintenance" none = 0 :=
  ⟨c2_maintenance_mode.1 6.5 (some "Sand") "Standard crops" "CaO" (some 130) 53
     (by rw [Liming.map_soil_texture_eval_sand, Liming.optimal_ph_eval_sand_std]; norm_num),
   c2_maintenance_mode.2.1 5.0 (some "Sand") "Standard crops" "CaO" 130 53
     (by rw [Liming.map_soil_texture_eval_sand, Liming.optimal_ph_eval_sand_std]; norm_num)
     (by norm_num),
   c2_maintenance_mode.2.2.2.2.1 5.8 6.5 10 1500 53 1 none none 130 (by norm_num) (by norm_num),
   c2_maintenance_mode.2.2.2.2.2 5.8 6.5 10 1500 53 1 none none (by norm_num)⟩

open Liming in
/-- C1 counterexample: a VDLUFA sample in the Automatic maintenance band
(pH 5.85 for Sand, Standard crops, whose reference pH is 5.9): the computed
dose ignores the available CaCO3 leaching loss of 130 kg/ha (the result is
identical with and without loss data), equals the improvement-curve value
59.58 kg/ha CaO, and differs from the leaching-derived maintenance dose, so
the dose is not derived from leaching loss as the claim states. -/
theorem c1_automatic_mode_counterexample :
    VDLUFACalculator._get_optimal_ph (VDLUFACalculator.map_soil_texture (some "Sand"))
        "Standard crops" - 0.1 ≤ (5.85 : ℚ) ∧
    (5.85 : ℚ) ≤ VDLUFACalculator._get_optimal_ph
        (VDLUFACalculator.map_soil_texture (some "Sand")) "Standard crops" ∧
    VDLUFACalculator.calculate_lime_requirement 5.85 (some "Sand") "Standard crops" "CaO"
        "Automatic" (some 130) 100 =
      VDLUFACalculator.calculate_lime_requirement 5.85 (some "Sand") "Standard crops" "CaO"
        "Automatic" none 100 ∧
    VDLUFACalculator.calculate_lime_requirement 5.85 (some "Sand") "Standard crops" "CaO"
        "Automatic" (some 130) 100 = 59.58 ∧
    (59.58 : ℚ) ≠ (130 / 1.785) * (100 / 100) := by
  have hne : ¬("Automatic" = "pH Maintenance") := by decide
  rw [Liming.map_soil_texture_eval_sand, Liming.optimal_ph_eval_sand_std]
  refine ⟨by norm_num, by norm_num, ?_, ?_, by norm_num⟩ <;>
    norm_num [VDLUFACalculator.calculate_lime_requirement, Liming.map_soil_texture_eval_sand,
      Liming.optimal_ph_eval_sand_std, VDLUFACalculator._calculate_standard_crops,
      VDLUFACalculator.convert_lime_type, VDLUFACalculator.LIME_CONVERSION_FACTORS,
      Liming.lookupStr, hne]

open Liming in
/-- C1 (amended): in Automatic mode both orchestrator paths label the sample
None above the reference pH, Maintenance in the band reference - 0.1 to
reference, and Improvement below the band; the CEC calculator doses the band
from the leaching loss (loss * 100/NV), treating the reference as
currentPh + 0.1 via the forward formula when no loss exists; the VDLUFA
calculator, however, doses Automatic mode with the improvement curve whenever
currentPh is below the optimum (leaching loss never enters), and returns 0 at
or above the optimum. -/
theorem c1_automatic_mode :
    (∀ (s : Sample) (p : VDLUFAParams) (c : ℚ),
      s.ph_value = some c → p.liming_mode = "Automatic" →
      (let tex := match s.soil_texture with | some t => t | none => p.default_soil_texture
       let opt := VDLUFACalculator._get_optimal_ph
         (VDLUFACalculator.map_soil_texture (some tex)) p.crop_type
       (opt < c → (_calculate_vdlufa_prescription s p).2.1 = "None (pH above optimal)") ∧
       (opt - 0.1 ≤ c → c ≤ opt → (_calculate_vdlufa_prescription s p).2.1 = "Maintenance") ∧
       (c < opt - 0.1 → (_calculate_vdlufa_prescription s p).2.1 = "Improvement"))) ∧
    (∀ (cecOf : String → ℚ) (s : Sample) (p : CECParams) (c fds nv : ℚ),
      s.ph_value = some c → p.fine_dry_soil = some fds → p.nv = some nv →
      p.liming_mode = "Automatic" →
      ((p.target_ph < c →
        (_calculate_cec_prescription cecOf s p).2.1 = "None (pH above target)") ∧
       (p.target_ph - 0.1 ≤ c → c ≤ p.target_ph →
        (_calculate_cec_prescription cecOf s p).2.1 = "Maintenance") ∧
       (c < p.target_ph - 0.1 →
        (_calculate_cec_prescription cecOf s p).2.1 = "Improvement"))) ∧
    (∀ (c t cec fds nv dose : ℚ) (sc msc : Option ℚ),
      (∀ loss, t < c →
        CECCalculator.calculate_lime_requirement c t cec fds nv dose sc msc "Automatic" loss
          = 0) ∧
      (∀ l : ℚ, t - 0.1 ≤ c → c ≤ t →
        CECCalculator.calculate_lime_requirement c t cec fds nv dose sc msc "Automatic" (some l)
          = l * (100 / nv)) ∧
      (t - 0.1 ≤ c → c ≤ t →
        CECCalculator.calculate_lime_requirement c t cec fds nv dose sc msc "Automatic" none
          = CECCalculator.dispatch_s_cec c (c + 0.1) cec fds nv dose sc msc) ∧
      (∀ loss, c < t - 0.1 →
        CECCalculator.calculate_lime_requirement c t cec fds nv dose sc msc "Automatic" loss
          = CECCalculator.dispatch_s_cec c t cec fds nv dose sc msc)) ∧
    (∀ (c : ℚ) (tex : Option String) (crop lt : String) (nv : ℚ) (loss : Option ℚ),
      (VDLUFACalculator._get_optimal_ph (VDLUFACalculator.map_soil_texture tex) crop ≤ c →
        VDLUFACalculator.calculate_lime_requirement c tex crop lt "Automatic" loss nv = 0) ∧
      (c < VDLUFACalculator._get_optimal_ph (VDLUFACalculator.map_soil_texture tex) crop →
        VDLUFACalculator.calculate_lime_requirement c tex crop lt "Automatic" loss nv =
          VDLUFACalculator.convert_lime_type
            ((if crop = "Standard crops" then
                VDLUFACalculator._calculate_standard_crops c
                  (VDLUFACalculator.map_soil_texture tex)
              else
                VDLUFACalculator._calculate_other_crops c
                  (VDLUFACalculator.map_soil_texture tex)) * 100) lt)) := by
  refine ⟨?_, ?_, ?_, ?_⟩
  · rintro ⟨sph, stex, sloss⟩ ⟨pc, pl, pm, pd, pmode, pnv⟩ c hph hmode
    simp only at hph hmode
    subst hph; subst hmode
    refine ⟨?_, ?_, ?_⟩ <;> intro h1 <;> try intro h2
    all_goals
      simp only [_calculate_vdlufa_prescription]
      rcases pm with _ | m <;>
        simp only [] <;>
        split_ifs <;>
        first
          | rfl
          | linarith
          | simp_all
  · rintro cecOf ⟨sph, stex, sloss⟩ ⟨pt, pm, pcec, pf, pn, pdose, psc, pmsc, pmode⟩ c fds nv
      hph hf hn hmode
    simp only at hph hf hn hmode
    subst hph; subst hf; subst hn; subst hmode
    refine ⟨?_, ?_, ?_⟩ <;> intro h1 <;> try intro h2
    all_goals
      simp only [_calculate_cec_prescription]
      rcases pm with _ | m <;>
        simp only [] <;>
        split_ifs <;>
        first
          | rfl
          | linarith
          | simp_all
  · intro c t cec fds nv dose sc msc
    refine ⟨?_, ?_, ?_, ?_⟩
    · intro loss h
      unfold CECCalculator.calculate_lime_requirement
      rw [if_neg (by simp), if_pos rfl, if_pos h]
    · intro l h1 h2
      unfold CECCalculator.calculate_lime_requirement
      rw [if_neg (by simp), if_pos rfl, if_neg (not_lt.mpr h2), if_pos h1]
    · intro h1 h2
      unfold CECCalculator.calculate_lime_requirement
      rw [if_neg (by simp), if_pos rfl, if_neg (not_lt.mpr h2), if_pos h1]
    · intro loss h
      unfold CECCalculator.calculate_lime_requirement
      rw [if_neg (by simp), if_pos rfl, if_neg (not_lt.mpr (by linarith)),
        if_neg (not_le.mpr (by linarith))]
  · intro c tex crop lt nv loss
    constructor
    · intro h
      unfold VDLUFACalculator.calculate_lime_requirement
      rw [if_neg (by simp), if_pos ⟨rfl, h⟩]
    · intro h
      unfold VDLUFACalculator.calculate_lime_requirement
      rw [if_neg (by simp), if_neg (by rintro ⟨-, h2⟩; linarith)]

open Liming in
/-- C1 witness: the amended statement at concrete inputs: the CEC calculator
in the Automatic band pH 6.45 toward target 6.5 doses 130 * 100/53 from the
leaching loss, while the VDLUFA calculator at pH 5.85 (band of optimum 5.9)
doses the improvement curve. -/
theorem c1_automatic_mode_witness :
    CECCalculator.calculate_lime_requirement 6.45 6.5 10 1500 53 1 none none "Automatic"
      (some 130) = 130 * (100 / 53) ∧
    VDLUFACalculator.calculate_lime_requirement 5.85 (some "Sand") "Standard crops" "CaO"
      "Automatic" (some 130) 100 =
      VDLUFACalculator.convert_lime_type
        ((if "Standard crops" = "Standard crops" then
            VDLUFACalculator._calculate_standard_crops 5.85
              (VDLUFACalculator.map_soil_texture (some "Sand"))
          else
            VDLUFACalculator._calculate_other_crops 5.85
              (VDLUFACalculator.map_soil_texture (some "Sand"))) * 100) "CaO" :=
  ⟨(c1_automatic_mode.2.2.1 6.45 6.5 10 1500 53 1 none none).2.1 130 (by norm_num)
     (by norm_num),
   (c1_automatic_mode.2.2.2 5.85 (some "Sand") "Standard crops" "CaO" 100 (some 130)).2
     (by rw [Liming.map_soil_texture_eval_sand, Liming.optimal_ph_eval_sand_std]; norm_num)⟩

open Liming in
/-- C3 counterexample: a VDLUFA sample requested in Automatic mode whose
applied mode is Maintenance (pH 5.85, Sand, Standard crops, reference 5.9),
with nominal dose 59.58 kg/ha CaO capped at 30: the result is capped and the
reported target pH is recomputed by the inverse function instead of staying
at currentPh, contradicting the claim for the applied-Maintenance case. -/
theorem c3_capping_counterexample :
    (Liming._calculate_vdlufa_prescription ⟨some 5.85, some "Sand", some 130⟩
      ⟨"Standard crops", "CaO", some 30, "Sandiger Schl Lehm", "Automatic", 100⟩).2.1 =
        "Maintenance" ∧
    (Liming._calculate_vdlufa_prescription ⟨some 5.85, some "Sand", some 130⟩
      ⟨"Standard crops", "CaO", some 30, "Sandiger Schl Lehm", "Automatic", 100⟩).2.2.2 =
        true ∧
    (Liming._calculate_vdlufa_prescription ⟨some 5.85, some "Sand", some 130⟩
      ⟨"Standard crops", "CaO", some 30, "Sandiger Schl Lehm", "Automatic", 100⟩).2.2.1 ≠
        some 5.85 := by
  have h1 : ¬("Automatic" = "pH Maintenance") := by decide
  have h2 : ¬("pH Improvement" = "pH Maintenance") := by decide
  have h3 : ¬("pH Improvement" = "Automatic") := by decide
  refine ⟨?_, ?_, ?_⟩ <;>
    norm_num [Liming._calculate_vdlufa_prescription,
      VDLUFACalculator.calculate_lime_requirement, VDLUFACalculator.reverse_calculate_ph,
      VDLUFACalculator._calculate_standard_crops, VDLUFACalculator.convert_lime_type,
      VDLUFACalculator.LIME_CONVERSION_FACTORS, Liming.lookupStr,
      Liming.map_soil_texture_eval_sand, Liming.optimal_ph_eval_sand_std, h1, h2, h3]

open Liming in
/-- C3 (amended): in both orchestrator paths, with a configured maximum rate:
a nominal dose above maxRate is reported as exactly maxRate with the capped
flag set, a nominal dose at or below maxRate is reported unchanged with the
flag clear, and the reported dose never exceeds the nominal dose.  When the
requested liming mode is pH Maintenance the reported target pH stays at
currentPh even when capped; in any other requested mode (including Automatic,
even when its applied mode is Maintenance) a capped dose triggers
recomputation of the achieved pH via the calculator's inverse function. -/
theorem c3_capping :
    (∀ (s : Sample) (p : VDLUFAParams) (c m : ℚ),
      s.ph_value = some c → p.max_application_rate = some m →
      (let tex : String := match s.soil_texture with | some t => t | none => p.default_soil_texture
       let loss := if p.liming_mode = "pH Maintenance" ∨ p.liming_mode = "Automatic" then
         s.caco3_loss_kg_ha else none
       let nominal := VDLUFACalculator.calculate_lime_requirement c (some tex) p.crop_type
         p.lime_type p.liming_mode loss p.nv
       let r := Liming._calculate_vdlufa_prescription s p
       (m < nominal → r.1 = m ∧ r.2.2.2 = true) ∧
       (nominal ≤ m → r.1 = nominal ∧ r.2.2.2 = false) ∧
       r.1 ≤ nominal ∧
       (p.liming_mode = "pH Maintenance" → r.2.2.1 = some c) ∧
       (¬(p.liming_mode = "pH Maintenance") → m < nominal →
        r.2.2.1 = some (VDLUFACalculator.reverse_calculate_ph m (some tex) p.crop_type
          p.lime_type c)))) ∧
    (∀ (cecOf : String → ℚ) (s : Sample) (p : CECParams) (c fds nv m : ℚ),
      s.ph_value = some c → p.fine_dry_soil = some fds → p.nv = some nv →
      p.max_application_rate = some m →
      (let cec := match s.soil_texture with | some t => cecOf t | none => p.cec_soil
       let loss := if p.liming_mode = "pH Maintenance" ∨ p.liming_mode = "Automatic" then
         s.caco3_loss_kg_ha else none
       let nominal := CECCalculator.calculate_lime_requirement c p.target_ph cec fds nv
         p.dose p.s_cec_percentage p.modified_s_cec p.liming_mode loss
       let r := Liming._calculate_cec_prescription cecOf s p
       (m < nominal → r.1 = m ∧ r.2.2.2 = true) ∧
       (nominal ≤ m → r.1 = nominal ∧ r.2.2.2 = false) ∧
       r.1 ≤ nominal ∧
       (p.liming_mode = "pH Maintenance" → r.2.2.1 = some c) ∧
       (¬(p.liming_mode = "pH Maintenance") → m < nominal →
        r.2.2.1 = some (CECCalculator.reverse_calculate_ph m c cec fds nv p.dose)))) := by
  constructor
  · rintro ⟨sph, stex, sloss⟩ ⟨pc, pl, pm, pd, pmode, pnv⟩ c m hph hm
    simp only at hph hm
    subst hph; subst hm
    simp only [Liming._calculate_vdlufa_prescription]
    refine ⟨?_, ?_, ?_, ?_, ?_⟩
    · intro hlt
      rw [if_pos hlt]
      exact ⟨rfl, rfl⟩
    · intro hle
      rw [if_neg (not_lt.mpr hle)]
      exact ⟨rfl, rfl⟩
    · split_ifs <;> first | exact le_rfl | exact le_of_lt (by assumption)
    · intro hmode
      subst hmode
      split_ifs <;> simp_all
    · intro hmode hlt
      rw [if_pos hlt]
      have hne : pmode ≠ "pH Maintenance" := hmode
      simp only [if_pos hne]
  · rintro cecOf ⟨sph, stex, sloss⟩ ⟨pt, pmx, pcec, pf, pn, pdose, psc, pmsc, pmode⟩
      c fds nv m hph hf hn hm
    simp only at hph hf hn hm
    subst hph; subst hf; subst hn; subst hm
    simp only [Liming._calculate_cec_prescription]
    refine ⟨?_, ?_, ?_, ?_, ?_⟩
    · intro hlt
      rw [if_pos hlt]
      exact ⟨rfl, rfl⟩
    · intro hle
      rw [if_neg (not_lt.mpr hle)]
      exact ⟨rfl, rfl⟩
    · split_ifs <;> first | exact le_rfl | exact le_of_lt (by assumption)
    · intro hmode
      subst hmode
      split_ifs <;> simp_all
    · intro hmode hlt
      rw [if_pos hlt]
      have hne : pmode ≠ "pH Maintenance" := hmode
      simp only [if_pos hne]

open Liming in
/-- C3 witness: a VDLUFA sample (pH 5, Sand, Standard crops, improvement
mode, nominal 1579.5 kg/ha CaO) against a 100 kg/ha cap: the reported
dose is exactly 100 and the capped flag is set. -/
theorem c3_capping_witness :
    (Liming._calculate_vdlufa_prescription ⟨some 5, some "Sand", none⟩
      ⟨"Standard crops", "CaO", some 100, "Sandiger Schl Lehm", "pH Improvement", 100⟩).1 =
        100 ∧
    (Liming._calculate_vdlufa_prescription ⟨some 5, some "Sand", none⟩
      ⟨"Standard crops", "CaO", some 100, "Sandiger Schl Lehm", "pH Improvement", 100⟩).2.2.2 =
        true := by
  have h2 : ¬("pH Improvement" = "pH Maintenance") := by decide
  have h3 : ¬("pH Improvement" = "Automatic") := by decide
  refine (c3_capping.1 ⟨some 5, some "Sand", none⟩
    ⟨"Standard crops", "CaO", some 100, "Sandiger Schl Lehm", "pH Improvement", 100⟩
    5 100 rfl rfl).1 ?_
  norm_num [VDLUFACalculator.calculate_lime_requirement,
    VDLUFACalculator._calculate_standard_crops, VDLUFACalculator.convert_lime_type,
    VDLUFACalculator.LIME_CONVERSION_FACTORS, Liming.lookupStr,
    Liming.map_soil_texture_eval_sand, Liming.optimal_ph_eval_sand_std, h2, h3]

open Liming in
/-- C6 counterexample: for Other crops on Sand the optimal-pH table reports
5.1 but the dose at pH 5.15 is 0.4 dt/ha, not 0; and for Standard crops on
Schwach Lehm Sand the dose increases from 10.823 dt/ha at pH 5.7 to
11.50143 dt/ha at pH 5.71 across the segment boundary, so the dose is
neither zero at every pH at or above the optimum nor non-increasing across
segment boundaries. -/
theorem c6_empirical_curves_counterexample :
    VDLUFACalculator._get_optimal_ph (some "Sand") "Other crops" ≤ (5.15 : ℚ) ∧
    VDLUFACalculator._calculate_other_crops 5.15 (some "Sand") = 0.4 ∧
    (0.4 : ℚ) ≠ 0 ∧
    (5.7 : ℚ) ≤ 5.71 ∧
    VDLUFACalculator._calculate_standard_crops 5.7 (some "Schwach Lehm Sand") <
      VDLUFACalculator._calculate_standard_crops 5.71 (some "Schwach Lehm Sand") := by
  refine ⟨?_, ?_, by norm_num, by norm_num, ?_⟩ <;>
    norm_num +decide [VDLUFACalculator._get_optimal_ph, VDLUFACalculator._calculate_other_crops,
      VDLUFACalculator._calculate_standard_crops]

open Liming in
/-- C6 (amended): for every texture of the empirical method, under Standard
crops the dose is 0 at every pH at or above the optimal-pH table value, and
under Other crops at every pH at or above the table value plus 0.1 (the
table is 0.1 below the zero of each Other-crops curve); the dose is
non-increasing with pH within every branch of every curve (same branch
index), but not across branch boundaries. -/
theorem c6_empirical_curves :
    (∀ tex, tex ∈ VDLUFACalculator.SOIL_TEXTURES → ∀ ph : ℚ,
      VDLUFACalculator._get_optimal_ph (some tex) "Standard crops" ≤ ph →
      VDLUFACalculator._calculate_standard_crops ph (some tex) = 0) ∧
    (∀ tex, tex ∈ VDLUFACalculator.SOIL_TEXTURES → ∀ ph : ℚ,
      VDLUFACalculator._get_optimal_ph (some tex) "Other crops" + 0.1 ≤ ph →
      VDLUFACalculator._calculate_other_crops ph (some tex) = 0) ∧
    (∀ (tex : Option String) (ph1 ph2 : ℚ), ph1 ≤ ph2 →
      Liming.stdBranch tex ph1 = Liming.stdBranch tex ph2 →
      VDLUFACalculator._calculate_standard_crops ph2 tex ≤
        VDLUFACalculator._calculate_standard_crops ph1 tex) ∧
    (∀ (tex : Option String) (ph1 ph2 : ℚ), ph1 ≤ ph2 →
      Liming.otherBranch tex ph1 = Liming.otherBranch tex ph2 →
      VDLUFACalculator._calculate_other_crops ph2 tex ≤
        VDLUFACalculator._calculate_other_crops ph1 tex) := by
  refine ⟨?_, ?_, ?_, ?_⟩
  · intro tex htex ph hph
    simp only [VDLUFACalculator.SOIL_TEXTURES] at htex
    fin_cases htex <;>
      (norm_num +decide [VDLUFACalculator._get_optimal_ph] at hph;
       norm_num +decide [VDLUFACalculator._calculate_standard_crops];
       split_ifs <;> first | rfl | linarith)
  · intro tex htex ph hph
    simp only [VDLUFACalculator.SOIL_TEXTURES] at htex
    fin_cases htex <;>
      (norm_num +decide [VDLUFACalculator._get_optimal_ph] at hph;
       norm_num +decide [VDLUFACalculator._calculate_other_crops];
       split_ifs <;> first | rfl | linarith)
  · intro tex ph1 ph2 h12 hbr
    unfold Liming.stdBranch at hbr
    unfold VDLUFACalculator._calculate_standard_crops
    split_ifs at hbr ⊢ <;> first | rfl | linarith | simp_all
  · intro tex ph1 ph2 h12 hbr
    unfold Liming.otherBranch at hbr
    unfold VDLUFACalculator._calculate_other_crops
    split_ifs at hbr ⊢ <;> first | rfl | linarith | simp_all

open Liming in
/-- C6 witness: the amended statement at concrete points: zero dose at the
Standard-crops optimum 6.4 of Schwach Lehm Sand, zero dose at pH 5.25 for
Other crops on Sand (table value 5.1 plus 0.1 is 5.2), and a within-branch
monotonicity instance on the steep Sand segment between pH 4.5 and 4.6. -/
theorem c6_empirical_curves_witness :
    VDLUFACalculator._calculate_standard_crops 6.4 (some "Schwach Lehm Sand") = 0 ∧
    VDLUFACalculator._calculate_other_crops 5.25 (some "Sand") = 0 ∧
    VDLUFACalculator._calculate_standard_crops 4.6 (some "Sand") ≤
      VDLUFACalculator._calculate_standard_crops 4.5 (some "Sand") :=
  ⟨c6_empirical_curves.1 "Schwach Lehm Sand" (by decide) 6.4
     (by norm_num +decide [VDLUFACalculator._get_optimal_ph]),
   c6_empirical_curves.2.1 "Sand" (by decide) 5.25
     (by norm_num +decide [VDLUFACalculator._get_optimal_ph]),
   c6_empirical_curves.2.2.1 (some "Sand") 4.5 4.6 (by norm_num)
     (by norm_num [Liming.stdBranch])⟩

namespace Liming

/-- Evaluation helper: binding an error in Except propagates the error. -/
theorem except_bind_error {f : ℚ → Except Unit ℚ} :
    ((Except.error () : Except Unit ℚ) >>= f) = Except.error () := rfl

/-- Evaluation helper: binding a success in Except applies the continuation. -/
theorem except_bind_ok (a : ℚ) (f : ℚ → Except Unit ℚ) :
    ((Except.ok a : Except Unit ℚ) >>= f) = f a := rfl

end Liming

open Liming in
/-- C7: evaluating the CEC inverse with Python division semantics at the
failing input NV = 0 (lime 100, current pH 6, CEC 10, fine-dry-soil 1500,
dose 1): the division numerator / (nv * 10) raises before the K * dose == 0
guard is reached, so the function errors instead of returning the current
pH.  The other degeneracies the claim lists are guarded as claimed: zero
CEC, zero dose, and nonpositive lime (the last even with NV = 0) all return
the unmodified current pH, as does the empirical inverse when the dose to
optimal is nonpositive. -/
theorem c7_reverse_nv_zero :
    CECCalculator.reverse_calculate_ph_exc 100 6 10 1500 0 1 = .error () ∧
    CECCalculator.reverse_calculate_ph_exc 100 6 0 1500 53 1 = .ok 6 ∧
    CECCalculator.reverse_calculate_ph_exc 100 6 10 1500 53 0 = .ok 6 ∧
    CECCalculator.reverse_calculate_ph_exc (-5) 6 10 1500 0 1 = .ok 6 ∧
    VDLUFACalculator.reverse_calculate_ph 100 (some "Sand") "Standard crops" "CaO" 6.5
      = 6.5 := by
  refine ⟨?_, ?_, ?_, ?_, ?_⟩ <;>
    norm_num +decide [CECCalculator.reverse_calculate_ph_exc, Liming.pydiv,
      Liming.except_bind_error, Liming.except_bind_ok,
      VDLUFACalculator.reverse_calculate_ph, VDLUFACalculator.calculate_lime_requirement,
      VDLUFACalculator._calculate_standard_crops, VDLUFACalculator.convert_lime_type,
      VDLUFACalculator.LIME_CONVERSION_FACTORS, Liming.lookupStr,
      Liming.map_soil_texture_eval_sand, Liming.optimal_ph_eval_sand_std]

open Liming in
/-- C8 counterexample: the non-empty input Bog is mapped to null by the
exact lookup (the dict maps it to None), and the non-empty unrecognized
input unknown, containing none of the keywords, also yields null, so the
resolver returns null on non-empty inputs and does not always degrade to a
keyword-derived guess. -/
theorem c8_texture_resolver_counterexample :
    VDLUFACalculator.map_soil_texture (some "Bog") = none ∧
    "Bog" ≠ "" ∧
    VDLUFACalculator.map_soil_texture (some "unknown") = none ∧
    "unknown" ≠ "" := by decide

open Liming in
/-- C8 (amended): the resolver returns null for a null input, for inputs the
mapping table explicitly sends to null (Bog, half-bog soil), and for
unrecognized non-empty strings containing none of the keywords sand, clay,
loam, lehm, silt; every unrecognized string that does contain one of the
keywords degrades to a keyword-derived guess instead of null. -/
theorem c8_texture_resolver :
    VDLUFACalculator.map_soil_texture none = none ∧
    (∀ s : String,
      Liming.lookupStr VDLUFACalculator.TEXTURE_MAPPING s = none →
      Liming.lookupStr VDLUFACalculator.TEXTURE_MAPPING (Liming.pyUpper s) = none →
      (Liming.strContains (Liming.pyLower s) "sand" = true ∨
       Liming.strContains (Liming.pyLower s) "clay" = true ∨
       Liming.strContains (Liming.pyLower s) "loam" = true ∨
       Liming.strContains (Liming.pyLower s) "lehm" = true ∨
       Liming.strContains (Liming.pyLower s) "silt" = true) →
      ∃ t, VDLUFACalculator.map_soil_texture (some s) = some t) ∧
    (∀ s : String,
      Liming.lookupStr VDLUFACalculator.TEXTURE_MAPPING s = none →
      Liming.lookupStr VDLUFACalculator.TEXTURE_MAPPING (Liming.pyUpper s) = none →
      Liming.strContains (Liming.pyLower s) "sand" = false →
      Liming.strContains (Liming.pyLower s) "clay" = false →
      Liming.strContains (Liming.pyLower s) "loam" = false →
      Liming.strContains (Liming.pyLower s) "lehm" = false →
      Liming.strContains (Liming.pyLower s) "silt" = false →
      VDLUFACalculator.map_soil_texture (some s) = none) := by
  refine ⟨rfl, ?_, ?_⟩
  · intro s h1 h2 hkw
    simp only [VDLUFACalculator.map_soil_texture]
    rw [h1, h2]
    split_ifs <;>
      first
        | exact ⟨_, rfl⟩
        | simp_all [Bool.or_eq_true]
  · intro s h1 h2 hs hc hl hh hsi
    simp only [VDLUFACalculator.map_soil_texture]
    rw [h1, h2]
    split_ifs <;> simp_all

open Liming in
/-- C8 witness: the amended statement at concrete inputs: the unrecognized
string red clay soil resolves through the clay keyword, and the keyword-free
string terra rossa resolves to null. -/
theorem c8_texture_resolver_witness :
    (∃ t, VDLUFACalculator.map_soil_texture (some "red clay soil") = some t) ∧
    VDLUFACalculator.map_soil_texture (some "terra rossa") = none :=
  ⟨c8_texture_resolver.2.1 "red clay soil" (by decide) (by decide) (by decide),
   c8_texture_resolver.2.2 "terra rossa" (by decide) (by decide) (by decide) (by decide)
     (by decide) (by decide) (by decide)⟩

open Liming in
/-- C10: the keyword fallback for loam/lehm inputs returns the string
Stark Lehm Sand, which is not one of the five entries of SOIL_TEXTURES
(the vocabulary spells it Stark Lehmiger Sand), so the optimal-pH table
falls back to its unknown-texture default 6.5 and the Standard-crops dose
curve falls through to its unknown-texture branch, behaving exactly as if
no texture had been resolved. -/
theorem c10_resolver_vocabulary :
    VDLUFACalculator.map_soil_texture (some "loam") = some "Stark Lehm Sand" ∧
    ¬("Stark Lehm Sand" ∈ VDLUFACalculator.SOIL_TEXTURES) ∧
    VDLUFACalculator._get_optimal_ph (VDLUFACalculator.map_soil_texture (some "loam"))
      "Standard crops" = 6.5 ∧
    VDLUFACalculator._calculate_standard_crops 5.0
        (VDLUFACalculator.map_soil_texture (some "loam")) =
      VDLUFACalculator._calculate_standard_crops 5.0 none := by
  have hmap : VDLUFACalculator.map_soil_texture (some "loam") = some "Stark Lehm Sand" := by
    decide
  refine ⟨hmap, by decide, ?_, ?_⟩ <;>
    rw [hmap] <;>
      norm_num +decide [VDLUFACalculator._get_optimal_ph,
        VDLUFACalculator._calculate_standard_crops]

namespace Liming

/-- Evaluation helper: below the lower clamp the bicarbonate factor is the
constant 5 (the power law value at pH 2 is below 0.002304 times 64). -/
theorem bicarb_at_two : get_bicarbonate_factor 2 = 5 := by
  unfold get_bicarbonate_factor
  have h2 : (2 : ℝ) ^ (5.792337 : ℝ) ≤ 64 := by
    calc (2 : ℝ) ^ (5.792337 : ℝ) ≤ 2 ^ (6 : ℝ) :=
          Real.rpow_le_rpow_of_exponent_le one_le_two (by norm_num)
    _ = 64 := by
          rw [show (6 : ℝ) = ((6 : ℕ) : ℝ) by norm_num, Real.rpow_natCast]; norm_num
  have h2p : (0 : ℝ) < (2 : ℝ) ^ (5.792337 : ℝ) := Real.rpow_pos_of_pos (by norm_num) _
  have hmin : min (500.0 : ℝ) (0.002304 * (2 : ℝ) ^ (5.792337 : ℝ)) =
      0.002304 * (2 : ℝ) ^ (5.792337 : ℝ) := min_eq_right (by nlinarith)
  rw [hmin, max_eq_left (by nlinarith)]
  norm_num

end Liming

open Liming in
/-- C9 counterexample: the bicarbonate factor is not strictly increasing at
every pH: the clamp to at least 5 makes it constant on the low range, for
example equal to 5 at both pH 1 and pH 2. -/
theorem c9_bicarbonate_counterexample :
    (1 : ℝ) < 2 ∧ get_bicarbonate_factor 1 = 5 ∧ get_bicarbonate_factor 2 = 5 := by
  refine ⟨by norm_num, ?_, Liming.bicarb_at_two⟩
  unfold Liming.get_bicarbonate_factor
  rw [Real.one_rpow]
  rw [min_eq_right (by norm_num), max_eq_left (by norm_num)]
  norm_num

open Liming in
/-- C9 (amended): the bicarbonate factor equals the power law
0.002304 * pH ^ 5.792337 clamped to the range 5 to 500 mg/L; it is a
continuous function of pH (in particular it has no jump at 5.0, 5.5, 6.0,
6.5, 7.0 or 7.5), it is non-decreasing on nonnegative pH, and it is strictly
increasing where the power law lies inside the clamp bounds, in particular
on the interval 5 ≤ pH ≤ 7 — but on the clamped ranges it is constant, not
strictly increasing. -/
theorem c9_bicarbonate :
    (∀ ph : ℝ, get_bicarbonate_factor ph =
      max 5.0 (min 500.0 (0.002304 * ph ^ (5.792337 : ℝ)))) ∧
    Continuous get_bicarbonate_factor ∧
    MonotoneOn get_bicarbonate_factor (Set.Ici 0) ∧
    StrictMonoOn get_bicarbonate_factor (Set.Icc 5 7) := by
  have hb : (0 : ℝ) ≤ 5.792337 := by norm_num
  refine ⟨fun ph => rfl, ?_, ?_, ?_⟩
  · have hc : Continuous fun x : ℝ => x ^ (5.792337 : ℝ) := by
      rw [continuous_iff_continuousAt]
      intro x
      exact Real.continuousAt_rpow_const x _ (Or.inr hb)
    exact continuous_const.max (continuous_const.min (continuous_const.mul hc))
  · intro x hx y hy hxy
    unfold Liming.get_bicarbonate_factor
    exact max_le_max le_rfl (min_le_min le_rfl
      (mul_le_mul_of_nonneg_left (Real.rpow_le_rpow hx hxy hb) (by norm_num)))
  · intro x hx y hy hxy
    have h5 : (3125 : ℝ) ≤ (5 : ℝ) ^ (5.792337 : ℝ) := by
      calc (3125 : ℝ) = 5 ^ ((5 : ℕ) : ℝ) := by rw [Real.rpow_natCast]; norm_num
      _ ≤ 5 ^ (5.792337 : ℝ) :=
          Real.rpow_le_rpow_of_exponent_le (by norm_num) (by norm_num)
    have h7 : (7 : ℝ) ^ (5.792337 : ℝ) ≤ 117649 := by
      calc (7 : ℝ) ^ (5.792337 : ℝ) ≤ 7 ^ ((6 : ℕ) : ℝ) :=
          Real.rpow_le_rpow_of_exponent_le (by norm_num) (by norm_num)
      _ = 117649 := by rw [Real.rpow_natCast]; norm_num
    have hxl : (5 : ℝ) ^ (5.792337 : ℝ) ≤ x ^ (5.792337 : ℝ) :=
      Real.rpow_le_rpow (by norm_num) hx.1 hb
    have hxu : x ^ (5.792337 : ℝ) ≤ (7 : ℝ) ^ (5.792337 : ℝ) :=
      Real.rpow_le_rpow (by linarith [hx.1]) hx.2 hb
    have hyl : (5 : ℝ) ^ (5.792337 : ℝ) ≤ y ^ (5.792337 : ℝ) :=
      Real.rpow_le_rpow (by norm_num) hy.1 hb
    have hyu : y ^ (5.792337 : ℝ) ≤ (7 : ℝ) ^ (5.792337 : ℝ) :=
      Real.rpow_le_rpow (by linarith [hy.1]) hy.2 hb
    have hlt : x ^ (5.792337 : ℝ) < y ^ (5.792337 : ℝ) :=
      Real.rpow_lt_rpow (by linarith [hx.1]) hxy (by norm_num)
    unfold Liming.get_bicarbonate_factor
    rw [min_eq_right (by nlinarith), min_eq_right (by nlinarith),
      max_eq_right (by nlinarith), max_eq_right (by nlinarith)]
    nlinarith

open Liming in
/-- C9 witness: strict monotonicity applied at the concrete pair pH 5 < 6
inside the unclamped range. -/
theorem c9_bicarbonate_witness :
    get_bicarbonate_factor 5 < get_bicarbonate_factor 6 :=
  c9_bicarbonate.2.2.2 (Set.mem_Icc.mpr ⟨by norm_num, by norm_num⟩)
    (Set.mem_Icc.mpr ⟨by norm_num, by norm_num⟩) (by norm_num)


